import Mathlib

/-
Verification of the config extractor/relay in `src/runtime/python/get_config.py`
against its specification, together with the sample worker module
`playground/server/queues/hello.py`.

The script is embedded shallowly:

* `PyVal` models the Python values that can appear as a module attribute
  (the JSON-like values plus callables, which are not JSON serializable).
* `dumpsVal` models `json.dumps` with its default separators and string
  escaping; it fails (returns `Option.none`) exactly on values containing
  a callable, mirroring the `TypeError` raised by `json.dumps`.
* `World` packages the ambient process state an invocation observes:
  the platform check, the `NODE_CHANNEL_FD` environment variable,
  `sys.path`, the directory `os.path.dirname(os.path.abspath(file_path))`,
  and the outcome of the `importlib` load of the target file.
* `send_message` and `run_python_module` are direct translations of the
  two functions in `get_config.py`; `pythonMain` translates the
  `__main__` block.  Raised exceptions are modelled as `SendResult.error`
  / the failure branches of `LoadResult`; the `except Exception` handler
  corresponds to `failOutcome` (one line on stderr, `sys.exit(1)`).
* An `Outcome` records the observable effects of one invocation: the exit
  code, every write to the relay channel (file descriptor or stdout), the
  stderr lines, the final `sys.path`, and the `config` attribute of the
  module as it stands after the run (the statement `del cfg["middleware"]`
  mutates the dict object owned by the module, which the model tracks).

Channel messages are strings; the script encodes them as UTF-8 before
writing, which is a faithful injective encoding and is left implicit.
-/

/-- A Python value as it can appear in the `config` attribute of a worker
attribute: the JSON representable values, plus callables (such as the
`run` function or middleware hooks), which `json.dumps` rejects. Dicts
are association lists of string keys. -/
inductive PyVal where
  | none
  | bool (b : Bool)
  | int (n : Int)
  | str (s : String)
  | list (items : List PyVal)
  | dict (entries : List (String × PyVal))
  | callable (fname : String)

/-- Does a `PyVal` satisfy the Python test `isinstance(cfg, dict)`? -/
def isDict : PyVal → Bool
  | PyVal.dict _ => true
  | _ => false

/-- The Python membership test `"middleware" in cfg`, specialised to an
arbitrary key: true exactly on dicts containing the key. -/
def hasKey (k : String) : PyVal → Bool
  | PyVal.dict es => es.any (fun e => e.1 == k)
  | _ => false

/-- The Python statement `del cfg[k]` for `k = "middleware"` on a dict (a dict has at
most one entry per key, so filtering all occurrences models deletion);
identity on non-dicts. -/
def delMiddleware : PyVal → PyVal
  | PyVal.dict es => PyVal.dict (es.filter (fun e => e.1 != "middleware"))
  | v => v

/-- Lines 47-49 of `get_config.py`:
`if isinstance(cfg, dict) and "middleware" in cfg: del cfg["middleware"]`. -/
def cleanConfig (cfg : PyVal) : PyVal :=
  if isDict cfg && hasKey "middleware" cfg then delMiddleware cfg else cfg

/-- JSON string escaping of one character, as `json.dumps` performs it for
the characters occurring in practice (quote, backslash and the common
control characters). -/
def escChar (c : Char) : String :=
  if c = '"' then "\\\""
  else if c = '\\' then "\\\\"
  else if c = '\n' then "\\n"
  else if c = '\r' then "\\r"
  else if c = '\t' then "\\t"
  else String.mk [c]

/-- Escape every character of a string in order. -/
def escapeRun : List Char → String
  | [] => ""
  | c :: rest => escChar c ++ escapeRun rest

/-- A JSON string literal: escaped content between double quotes. -/
def jstr (s : String) : String :=
  "\"" ++ escapeRun s.data ++ "\""

/-- Join already-serialized elements with the default item separator
`", "` of `json.dumps`. -/
def joinComma : List String → String
  | [] => ""
  | [s] => s
  | s :: rest => s ++ ", " ++ joinComma rest

/-- The decimal digit character for `d` (callers pass `d < 10`). -/
def digitChar (d : Nat) : Char :=
  if d = 0 then '0' else if d = 1 then '1' else if d = 2 then '2'
  else if d = 3 then '3' else if d = 4 then '4' else if d = 5 then '5'
  else if d = 6 then '6' else if d = 7 then '7' else if d = 8 then '8' else '9'

/-- Decimal digits of `n`, most significant first. The fuel argument only
drives structural recursion; `natDigits` passes `n + 1`, which always
exceeds the number of decimal digits of `n`. -/
def natDigitsCore : Nat → Nat → List Char
  | 0, _ => []
  | fuel + 1, n =>
    if n < 10 then [digitChar n]
    else natDigitsCore fuel (n / 10) ++ [digitChar (n % 10)]

/-- Decimal digits of a natural number. -/
def natDigits (n : Nat) : List Char := natDigitsCore (n + 1) n

/-- The Python decimal rendering of an integer, as used by `json.dumps`. -/
def intRepr (n : Int) : String :=
  if n < 0 then String.mk ('-' :: natDigits n.natAbs) else String.mk (natDigits n.natAbs)

mutual
/-- Model of `json.dumps` with its default separators (`", "` and `": "`).
Returns `Option.none` exactly where `json.dumps` raises `TypeError`:
when the value contains a callable. -/
def dumpsVal : PyVal → Option String
  | PyVal.none => some "null"
  | PyVal.bool b => some (if b then "true" else "false")
  | PyVal.int n => some (intRepr n)
  | PyVal.str s => some (jstr s)
  | PyVal.callable _ => Option.none
  | PyVal.list items => (dumpsItems items).map (fun parts => "[" ++ joinComma parts ++ "]")
  | PyVal.dict entries =>
      (dumpsEntries entries).map (fun parts => "\x7b" ++ joinComma parts ++ "\x7d")

/-- Serialize the elements of a JSON array, failing if any element fails. -/
def dumpsItems : List PyVal → Option (List String)
  | [] => some []
  | v :: rest =>
    match dumpsVal v with
    | Option.none => Option.none
    | some s => (dumpsItems rest).map (fun parts => s :: parts)

/-- Serialize the `"key": value` members of a JSON object, failing if any
value fails. -/
def dumpsEntries : List (String × PyVal) → Option (List String)
  | [] => some []
  | (k, v) :: rest =>
    match dumpsVal v with
    | Option.none => Option.none
    | some s => (dumpsEntries rest).map (fun parts => (jstr k ++ ": " ++ s) :: parts)
end

/-- Is a character stripped by `int()` before parsing (ASCII whitespace)? -/
def isPySpace (c : Char) : Bool :=
  c == ' ' || c == '\t' || c == '\n' || c == '\r' || c == '\x0b' || c == '\x0c'

/-- The Python conversion `int(s)`: optional surrounding whitespace, an optional sign,
then at least one decimal digit; anything else raises `ValueError`,
modelled as `Option.none`. -/
def pyIntParse (s : String) : Option Int :=
  let chars := ((s.data.dropWhile isPySpace).reverse.dropWhile isPySpace).reverse
  let core : List Char :=
    match chars with
    | '+' :: rest => rest
    | '-' :: rest => rest
    | l => l
  if core ≠ [] ∧ core.all Char.isDigit then
    let mag : Int := Int.ofNat (core.foldl (fun acc c => acc * 10 + (c.toNat - 48)) 0)
    match chars with
    | '-' :: _ => some (-mag)
    | _ => some mag
  else Option.none

/-- Outcome of `importlib.util.spec_from_file_location` + `exec_module`
for the target file: the spec (or its loader) may be `None`, executing
the module body may raise an exception carrying a message, or the module
loads and exposes its attributes (an association list, since Python
module attributes are uniquely named). -/
inductive LoadResult where
  | specFailure
  | execFailure (msg : String)
  | loaded (attrs : List (String × PyVal))

/-- The ambient process state one invocation of the script observes. -/
structure World where
  /-- Result of `platform.system() == "Windows"`. -/
  isWindows : Bool
  /-- Value of `os.environ.get("NODE_CHANNEL_FD")`. -/
  nodeChannelFd : Option String
  /-- Value of `sys.path` at entry. -/
  sysPath : List String
  /-- Value of `os.path.dirname(os.path.abspath(file_path))`. -/
  moduleDir : String
  /-- What loading the target file does. -/
  load : LoadResult

/-- The relay channel a message is written to. -/
inductive Chan where
  | fd (n : Int)
  | stdout

/-- Result of `send_message`: either a single write to a channel, or a
raised exception carrying `str(error)`. -/
inductive SendResult where
  | sent (write : Chan × String)
  | error (msg : String)

/-- Lines 8-23 of `get_config.py`. The JSON line is built first
(`json.dumps(payload) + "\n"`); only then is the channel selected:
stdout on Windows, otherwise the descriptor parsed from
`NODE_CHANNEL_FD`, whose absence raises `KeyError` and whose non-numeric
value makes `int()` raise `ValueError`. -/
def send_message (w : World) (payload : PyVal) : SendResult :=
  match dumpsVal payload with
  | Option.none => SendResult.error "Object of type function is not JSON serializable"
  | some js =>
    if w.isWindows then SendResult.sent (Chan.stdout, js ++ "\n")
    else
      match w.nodeChannelFd with
      | Option.none => SendResult.error "\x27NODE_CHANNEL_FD\x27"
      | some v =>
        match pyIntParse v with
        | Option.none =>
            SendResult.error ("invalid literal for int() with base 10: \x27" ++ v ++ "\x27")
        | some n => SendResult.sent (Chan.fd n, js ++ "\n")

/-- Observable effects of one invocation. -/
structure Outcome where
  /-- Process exit status (0 for falling off the end of `__main__`). -/
  exitCode : Nat
  /-- Every write to the relay channel, in order. -/
  channelWrites : List (Chan × String)
  /-- Lines printed to stderr, in order. -/
  stderrLines : List String
  /-- `sys.path` when the process exits. -/
  sysPathAfter : List String
  /-- The `config` attribute of the loaded module after the run (`Option.none`
  when no module with a `config` attribute was loaded). -/
  moduleConfigAfter : Option PyVal
  /-- The payload actually handed to a successful channel write. -/
  sentPayload : Option PyVal

/-- Lines 28-31 of `get_config.py`:
`if module_dir not in sys.path: sys.path.insert(0, module_dir)`. -/
def insertDir (w : World) : List String :=
  if w.moduleDir ∈ w.sysPath then w.sysPath else w.moduleDir :: w.sysPath

/-- The stderr line printed by the `except Exception` handler:
`print("Error running Python module:", str(error), file=sys.stderr)`. -/
def errLine (msg : String) : String := "Error running Python module: " ++ msg

/-- The `except Exception as error` branch of `run_python_module`: one
diagnostic line on stderr, nothing on the channel, `sys.exit(1)`. -/
def failOutcome (w : World) (msg : String) (cfgAfter : Option PyVal) : Outcome :=
  { exitCode := 1, channelWrites := [], stderrLines := [errLine msg],
    sysPathAfter := insertDir w, moduleConfigAfter := cfgAfter, sentPayload := Option.none }

/-- Lines 26-55 of `get_config.py`. The sys.path insertion happens first;
a `None` spec or loader raises `ImportError(f"Could not load module from
{file_path}")`; a module body exception propagates with its message; a
missing `config` attribute raises an `AttributeError` whose message names
`config` and the file path; otherwise the `middleware` key is deleted in
place from a dict config and the result is sent.  Every raised exception
lands in the `except` handler (`failOutcome`). -/
def run_python_module (file_path : String) (w : World) : Outcome :=
  match w.load with
  | LoadResult.specFailure =>
      failOutcome w ("Could not load module from " ++ file_path) Option.none
  | LoadResult.execFailure msg => failOutcome w msg Option.none
  | LoadResult.loaded attrs =>
    match attrs.lookup "config" with
    | Option.none =>
        failOutcome w ("No \x27config\x27 found in module " ++ file_path) Option.none
    | some cfg =>
      match send_message w (cleanConfig cfg) with
      | SendResult.sent wr =>
          { exitCode := 0, channelWrites := [wr], stderrLines := [],
            sysPathAfter := insertDir w, moduleConfigAfter := some (cleanConfig cfg),
            sentPayload := some (cleanConfig cfg) }
      | SendResult.error msg => failOutcome w msg (some (cleanConfig cfg))

/-- Lines 58-64 of `get_config.py`: with fewer than two entries in
`sys.argv` the process exits with status 1 before doing anything else;
otherwise `run_python_module(sys.argv[1])` runs. -/
def pythonMain (argv : List String) (w : World) : Outcome :=
  if argv.length < 2 then
    { exitCode := 1, channelWrites := [], stderrLines := [],
      sysPathAfter := w.sysPath, moduleConfigAfter := Option.none,
      sentPayload := Option.none }
  else run_python_module (argv.getD 1 "") w

/-- The `config` dict of `playground/server/queues/hello.py`. -/
def helloConfig : PyVal :=
  PyVal.dict
    [("queue", PyVal.str "hello"),
     ("flow", PyVal.dict
        [("name", PyVal.list [PyVal.str "welcome-flow"]),
         ("role", PyVal.str "entry"),
         ("step", PyVal.str "hello"),
         ("emits", PyVal.list [PyVal.str "hello.done"])])]

/-- The attributes of the loaded `hello.py` module: its `config` dict and
its `run` function. -/
def helloAttrs : List (String × PyVal) :=
  [("config", helloConfig), ("run", PyVal.callable "run")]

/-- Further sample data: a config dict carrying a `middleware` callable,
as a worker module may define it. -/
def midEntries : List (String × PyVal) :=
  [("queue", PyVal.str "x"), ("middleware", PyVal.callable "mw")]

/-- The config value built from `midEntries`. -/
def midConfig : PyVal := PyVal.dict midEntries

/-- The entries of the hello config, named so that theorems can speak
about the underlying association list. -/
def helloEntries : List (String × PyVal) :=
  [("queue", PyVal.str "hello"),
   ("flow", PyVal.dict
      [("name", PyVal.list [PyVal.str "welcome-flow"]),
       ("role", PyVal.str "entry"),
       ("step", PyVal.str "hello"),
       ("emits", PyVal.list [PyVal.str "hello.done"])])]

/-- A Unix invocation with a valid channel descriptor and the hello
module loaded. -/
def unixWorld : World :=
  { isWindows := false, nodeChannelFd := some "3", sysPath := ["lib"],
    moduleDir := "queues", load := LoadResult.loaded helloAttrs }

/-- A Windows invocation with a module whose config carries middleware. -/
def midWorld : World :=
  { isWindows := true, nodeChannelFd := Option.none, sysPath := [],
    moduleDir := "queues", load := LoadResult.loaded [("config", midConfig)] }

/-- A non-Windows invocation with `NODE_CHANNEL_FD` unset. -/
def noFdWorld : World :=
  { isWindows := false, nodeChannelFd := Option.none, sysPath := [],
    moduleDir := "queues", load := LoadResult.loaded helloAttrs }

/-- A non-Windows invocation with a non-numeric `NODE_CHANNEL_FD`. -/
def badFdWorld : World :=
  { isWindows := false, nodeChannelFd := some "abc", sysPath := [],
    moduleDir := "queues", load := LoadResult.loaded helloAttrs }

/-- A module that loads fine but defines no `config` attribute. -/
def noConfigWorld : World :=
  { isWindows := true, nodeChannelFd := Option.none, sysPath := [],
    moduleDir := "queues", load := LoadResult.loaded [("run", PyVal.callable "run")] }

/-- A module whose `config` is a list, not a dict. -/
def listConfigWorld : World :=
  { isWindows := true, nodeChannelFd := Option.none, sysPath := [],
    moduleDir := "queues",
    load := LoadResult.loaded [("config", PyVal.list [PyVal.int 1, PyVal.str "a"])] }

theorem data_append (a b : String) : (a ++ b).data = a.data ++ b.data := rfl

/-- A successful `send_message` wrote the serialized payload plus one
trailing newline, whatever the channel was. -/
theorem send_message_sent (w : World) (p : PyVal) (wr : Chan × String)
    (h : send_message w p = SendResult.sent wr) :
    ∃ js c, dumpsVal p = some js ∧ wr = (c, js ++ "\n") := by
  unfold send_message at h
  split at h
  · exact absurd h (by simp)
  next js hd =>
    split at h
    · injection h with h2
      exact ⟨js, Chan.stdout, hd, h2.symm⟩
    · split at h
      · exact absurd h (by simp)
      next v =>
        split at h
        · exact absurd h (by simp)
        next n hp =>
          injection h with h2
          exact ⟨js, Chan.fd n, hd, h2.symm⟩

/-- Every invocation of `run_python_module` either took the single
success path (module loaded, `config` present, cleaned config sent) or
ended in the `except` handler. -/
theorem run_shape (fp : String) (w : World) :
    (∃ attrs cfg wr, w.load = LoadResult.loaded attrs ∧
        attrs.lookup "config" = some cfg ∧
        send_message w (cleanConfig cfg) = SendResult.sent wr ∧
        run_python_module fp w =
          { exitCode := 0, channelWrites := [wr], stderrLines := [],
            sysPathAfter := insertDir w, moduleConfigAfter := some (cleanConfig cfg),
            sentPayload := some (cleanConfig cfg) }) ∨
    (∃ msg cfgAfter, run_python_module fp w = failOutcome w msg cfgAfter) := by
  cases hload : w.load with
  | specFailure =>
    refine Or.inr ⟨"Could not load module from " ++ fp, Option.none, ?_⟩
    simp only [run_python_module, hload]
  | execFailure msg =>
    refine Or.inr ⟨msg, Option.none, ?_⟩
    simp only [run_python_module, hload]
  | loaded attrs =>
    cases hc : attrs.lookup "config" with
    | none =>
      refine Or.inr ⟨"No \x27config\x27 found in module " ++ fp, Option.none, ?_⟩
      simp only [run_python_module, hload, hc]
    | some cfg =>
      cases hs : send_message w (cleanConfig cfg) with
      | sent wr =>
        refine Or.inl ⟨attrs, cfg, wr, rfl, hc, hs, ?_⟩
        simp only [run_python_module, hload, hc, hs]
      | error msg =>
        refine Or.inr ⟨msg, some (cleanConfig cfg), ?_⟩
        simp only [run_python_module, hload, hc, hs]

theorem escChar_no_nl (c : Char) : '\n' ∉ (escChar c).data := by
  unfold escChar
  split_ifs with h1 h2 h3 h4 h5
  · decide
  · decide
  · decide
  · decide
  · decide
  · simp [String.mk]
    intro hc
    exact h3 (by rw [hc])

theorem escapeRun_no_nl (l : List Char) : '\n' ∉ (escapeRun l).data := by
  induction l with
  | nil => simp [escapeRun]
  | cons c rest ih =>
    simp only [escapeRun, data_append, List.mem_append]
    rintro (h | h)
    · exact escChar_no_nl c h
    · exact ih h

theorem jstr_no_nl (s : String) : '\n' ∉ (jstr s).data := by
  simp only [jstr, data_append, List.mem_append]
  rintro ((h | h) | h)
  · revert h; decide
  · exact escapeRun_no_nl s.data h
  · revert h; decide

theorem digitChar_no_nl (d : Nat) : digitChar d ≠ '\n' := by
  unfold digitChar
  split_ifs <;> decide

theorem natDigitsCore_no_nl (fuel n : Nat) : '\n' ∉ natDigitsCore fuel n := by
  induction fuel generalizing n with
  | zero => simp [natDigitsCore]
  | succ fuel ih =>
    simp only [natDigitsCore]
    split_ifs with h
    · simp
      exact fun hc => digitChar_no_nl n hc.symm
    · simp only [List.mem_append, List.mem_singleton]
      rintro (hc | hc)
      · exact ih (n / 10) hc
      · exact digitChar_no_nl (n % 10) hc.symm

theorem intRepr_no_nl (n : Int) : '\n' ∉ (intRepr n).data := by
  unfold intRepr natDigits
  split_ifs with h
  · simp only [String.mk, List.mem_cons]
    rintro (hc | hc)
    · revert hc; decide
    · exact natDigitsCore_no_nl _ _ hc
  · simp only [String.mk]
    exact natDigitsCore_no_nl _ _

theorem joinComma_no_nl (l : List String) (h : ∀ s ∈ l, '\n' ∉ s.data) :
    '\n' ∉ (joinComma l).data := by
  induction l with
  | nil => simp [joinComma]
  | cons s rest ih =>
    cases rest with
    | nil => simpa [joinComma] using h s (List.mem_cons_self s [])
    | cons t more =>
      simp only [joinComma, data_append, List.mem_append]
      rintro ((hc | hc) | hc)
      · exact h s (List.mem_cons_self s _) hc
      · revert hc; decide
      · exact ih (fun u hu => h u (List.mem_cons_of_mem s hu)) hc

mutual
/-- The serialized form of a value never contains a newline character:
`json.dumps` with default options emits everything on one line. -/
theorem dumpsVal_no_nl (p : PyVal) (s : String) (h : dumpsVal p = some s) :
    '\n' ∉ s.data := by
  cases p with
  | none =>
    simp only [dumpsVal, Option.some.injEq] at h
    subst h; decide
  | bool b =>
    simp only [dumpsVal, Option.some.injEq] at h
    subst h; cases b <;> decide
  | int n =>
    simp only [dumpsVal, Option.some.injEq] at h
    subst h; exact intRepr_no_nl n
  | str t =>
    simp only [dumpsVal, Option.some.injEq] at h
    subst h; exact jstr_no_nl t
  | callable fn => simp [dumpsVal] at h
  | list items =>
    simp only [dumpsVal, Option.map_eq_some'] at h
    obtain ⟨parts, hp, hs⟩ := h
    subst hs
    simp only [data_append, List.mem_append]
    rintro ((hc | hc) | hc)
    · revert hc; decide
    · exact joinComma_no_nl parts (fun u hu => dumpsItems_no_nl items parts hp u hu) hc
    · revert hc; decide
  | dict entries =>
    simp only [dumpsVal, Option.map_eq_some'] at h
    obtain ⟨parts, hp, hs⟩ := h
    subst hs
    simp only [data_append, List.mem_append]
    rintro ((hc | hc) | hc)
    · revert hc; decide
    · exact joinComma_no_nl parts (fun u hu => dumpsEntries_no_nl entries parts hp u hu) hc
    · revert hc; decide

theorem dumpsItems_no_nl (xs : List PyVal) (out : List String)
    (h : dumpsItems xs = some out) : ∀ s ∈ out, '\n' ∉ s.data := by
  cases xs with
  | nil =>
    simp only [dumpsItems, Option.some.injEq] at h
    subst h; simp
  | cons v rest =>
    unfold dumpsItems at h
    split at h
    · exact absurd h (by simp)
    next s hd =>
      simp only [Option.map_eq_some'] at h
      obtain ⟨parts, hp, ho⟩ := h
      subst ho
      intro u hu
      rcases List.mem_cons.mp hu with hu | hu
      · subst hu; exact dumpsVal_no_nl v u hd
      · exact dumpsItems_no_nl rest parts hp u hu

theorem dumpsEntries_no_nl (es : List (String × PyVal)) (out : List String)
    (h : dumpsEntries es = some out) : ∀ s ∈ out, '\n' ∉ s.data := by
  cases es with
  | nil =>
    simp only [dumpsEntries, Option.some.injEq] at h
    subst h; simp
  | cons e rest =>
    obtain ⟨k, v⟩ := e
    unfold dumpsEntries at h
    split at h
    · exact absurd h (by simp)
    next s hd =>
      simp only [Option.map_eq_some'] at h
      obtain ⟨parts, hp, ho⟩ := h
      subst ho
      intro u hu
      rcases List.mem_cons.mp hu with hu | hu
      · subst hu
        simp only [data_append, List.mem_append]
        rintro ((hc | hc) | hc)
        · exact jstr_no_nl k hc
        · revert hc; decide
        · exact dumpsVal_no_nl v s hd hc
      · exact dumpsEntries_no_nl rest parts hp u hu
end

theorem lookup_filter_middleware (es : List (String × PyVal)) :
    (es.filter (fun e => e.1 != "middleware")).lookup "middleware" = Option.none := by
  induction es with
  | nil => simp
  | cons e rest ih =>
    obtain ⟨k, v⟩ := e
    by_cases hk : k = "middleware"
    · subst hk
      simpa using ih
    · rw [List.filter_cons]
      have : ((k, v).1 != "middleware") = true := by simpa using hk
      rw [if_pos this]
      rw [List.lookup_cons]
      have : ("middleware" == k) = false := by simpa using fun h => hk h.symm
      simp [this, ih]

theorem lookup_filter_other (es : List (String × PyVal)) (k : String)
    (hk : k ≠ "middleware") :
    (es.filter (fun e => e.1 != "middleware")).lookup k = es.lookup k := by
  induction es with
  | nil => simp
  | cons e rest ih =>
    obtain ⟨k1, v⟩ := e
    by_cases h1 : k1 = "middleware"
    · subst h1
      have hne : (k == "middleware") = false := by simpa using hk
      simp [List.filter_cons, List.lookup_cons, hne, ih]
    · have : ((k1, v).1 != "middleware") = true := by simpa using h1
      rw [List.filter_cons, if_pos this, List.lookup_cons, List.lookup_cons]
      by_cases he : k = k1
      · subst he; simp
      · have : (k == k1) = false := by simpa using he
        simp [this, ih]

theorem filter_id_of_no_middleware (es : List (String × PyVal))
    (h : es.any (fun e => e.1 == "middleware") = false) :
    es.filter (fun e => e.1 != "middleware") = es := by
  rw [List.filter_eq_self]
  intro e he
  have := (List.any_eq_false.mp h) e he
  simpa using this

/-- On a dict, the cleaning performed by lines 47-49 of `get_config.py`
amounts to dropping any `middleware` entry, whether or not one exists. -/
theorem cleanConfig_dict (es : List (String × PyVal)) :
    cleanConfig (PyVal.dict es) = PyVal.dict (es.filter (fun e => e.1 != "middleware")) := by
  unfold cleanConfig
  by_cases h : hasKey "middleware" (PyVal.dict es) = true
  · rw [if_pos (by simp [isDict, h])]
    rfl
  · rw [if_neg (by simp [isDict]; simpa using h)]
    have hb : hasKey "middleware" (PyVal.dict es) = false := by
      cases hx : hasKey "middleware" (PyVal.dict es)
      · rfl
      · exact absurd hx h
    have hany : es.any (fun e => e.1 == "middleware") = false := hb
    rw [filter_id_of_no_middleware es hany]

/-- A non-dict config passes the cleaning step untouched. -/
theorem cleanConfig_not_dict (cfg : PyVal) (h : isDict cfg = false) :
    cleanConfig cfg = cfg := by
  unfold cleanConfig
  rw [if_neg (by simp [h])]

theorem lookup_none_of_no_middleware (es : List (String × PyVal))
    (h : es.lookup "middleware" = Option.none) :
    es.any (fun e => e.1 == "middleware") = false := by
  induction es with
  | nil => simp
  | cons e rest ih =>
    obtain ⟨k, v⟩ := e
    rw [List.lookup_cons] at h
    by_cases hk : k = "middleware"
    · subst hk; simp at h
    · have hbe : ("middleware" == k) = false := by simpa using fun hx => hk hx.symm
      rw [hbe] at h
      simp only [List.any_cons, Bool.or_eq_false_iff]
      exact ⟨by simpa using hk, ih h⟩

/-- C1: for a worker module whose `config` is a keyed mapping, the emitted
JSON object is exactly that mapping with any `middleware` entry removed:
the payload written to the channel serializes the filtered entry list, the
filtered list has no `middleware` key and agrees with the original on every
other key, and when the original had no `middleware` key it is kept whole. -/
theorem emitted_config_strips_exactly_middleware (fp : String) (w : World)
    (attrs es : List (String × PyVal))
    (hl : w.load = LoadResult.loaded attrs)
    (hc : attrs.lookup "config" = some (PyVal.dict es))
    (hexit : (run_python_module fp w).exitCode = 0) :
    ∃ c js,
      (run_python_module fp w).channelWrites = [(c, js ++ "\n")] ∧
      (run_python_module fp w).sentPayload =
        some (PyVal.dict (es.filter (fun e => e.1 != "middleware"))) ∧
      dumpsVal (PyVal.dict (es.filter (fun e => e.1 != "middleware"))) = some js ∧
      (es.filter (fun e => e.1 != "middleware")).lookup "middleware" = Option.none ∧
      (∀ k, k ≠ "middleware" →
        (es.filter (fun e => e.1 != "middleware")).lookup k = es.lookup k) ∧
      (es.lookup "middleware" = Option.none →
        es.filter (fun e => e.1 != "middleware") = es) := by
  rcases run_shape fp w with ⟨attrs2, cfg2, wr, hl2, hc2, hs2, hrun⟩ | ⟨msg, cfgAfter, hrun⟩
  · have hattrs : attrs2 = attrs := by
      have := hl.symm.trans hl2
      injection this with h2
      exact h2.symm
    subst hattrs
    have hcfg : cfg2 = PyVal.dict es := by
      have := hc.symm.trans hc2
      injection this with h2
      exact h2.symm
    subst hcfg
    obtain ⟨js, c, hd, hwr⟩ := send_message_sent w _ wr hs2
    rw [cleanConfig_dict] at hd hrun
    refine ⟨c, js, ?_, ?_, hd, lookup_filter_middleware es,
      (fun k hk => lookup_filter_other es k hk),
      (fun hnone => filter_id_of_no_middleware es (lookup_none_of_no_middleware es hnone))⟩
    · rw [hrun, hwr]
    · rw [hrun]
  · rw [hrun] at hexit
    exact absurd hexit (by simp [failOutcome])

/-- C1 witness: the hello module on a Unix world with a valid descriptor. -/
theorem emitted_config_strips_exactly_middleware_check :
    unixWorld.load = LoadResult.loaded helloAttrs ∧
    helloAttrs.lookup "config" = some (PyVal.dict helloEntries) ∧
    (run_python_module "hello.py" unixWorld).exitCode = 0 ∧
    ∃ c js,
      (run_python_module "hello.py" unixWorld).channelWrites = [(c, js ++ "\n")] ∧
      (run_python_module "hello.py" unixWorld).sentPayload =
        some (PyVal.dict (helloEntries.filter (fun e => e.1 != "middleware"))) ∧
      dumpsVal (PyVal.dict (helloEntries.filter (fun e => e.1 != "middleware"))) = some js ∧
      (helloEntries.filter (fun e => e.1 != "middleware")).lookup "middleware" = Option.none ∧
      (∀ k, k ≠ "middleware" →
        (helloEntries.filter (fun e => e.1 != "middleware")).lookup k = helloEntries.lookup k) ∧
      (helloEntries.lookup "middleware" = Option.none →
        helloEntries.filter (fun e => e.1 != "middleware") = helloEntries) :=
  ⟨rfl, rfl, by decide,
    emitted_config_strips_exactly_middleware "hello.py" unixWorld helloAttrs helloEntries
      rfl rfl (by decide)⟩

/-- C2 counterexample: with `config = dict [queue ↦ "x", middleware ↦ run]`
the `config` object of the module after the relay differs from the one the
module finished loading with — the `del` on line 49 mutates it in place. -/
theorem config_never_mutated_cx :
    (run_python_module "worker.py" midWorld).moduleConfigAfter ≠ some midConfig := by
  intro h
  have h2 := congrArg (Option.map (hasKey "middleware")) h
  revert h2
  decide

/-- C2 amended: after the relay the `config` object of the module equals the
original with the `middleware` key deleted; it is unchanged exactly when
the original was not a dict or had no `middleware` key, and mutated in
place (the `middleware` entry dropped) when it was a dict with one. -/
theorem config_object_after_relay (fp : String) (w : World)
    (attrs : List (String × PyVal)) (cfg : PyVal)
    (hl : w.load = LoadResult.loaded attrs)
    (hc : attrs.lookup "config" = some cfg) :
    (run_python_module fp w).moduleConfigAfter = some (cleanConfig cfg) ∧
    ((isDict cfg = false ∨ hasKey "middleware" cfg = false) → cleanConfig cfg = cfg) ∧
    (∀ es, cfg = PyVal.dict es →
      cleanConfig cfg = PyVal.dict (es.filter (fun e => e.1 != "middleware"))) := by
  refine ⟨?_, ?_, ?_⟩
  · simp only [run_python_module, hl, hc]
    split <;> simp [failOutcome]
  · rintro (h | h)
    · exact cleanConfig_not_dict cfg h
    · unfold cleanConfig
      rw [if_neg (by simp [h])]
  · intro es hes
    subst hes
    exact cleanConfig_dict es

/-- C2 amended witness: the middleware-carrying module on `midWorld`. -/
theorem config_object_after_relay_check :
    midWorld.load = LoadResult.loaded [("config", midConfig)] ∧
    ([("config", midConfig)].lookup "config" = some midConfig) ∧
    (run_python_module "worker.py" midWorld).moduleConfigAfter = some (cleanConfig midConfig) ∧
    cleanConfig midConfig = PyVal.dict (midEntries.filter (fun e => e.1 != "middleware")) :=
  ⟨rfl, rfl,
    (config_object_after_relay "worker.py" midWorld [("config", midConfig)] midConfig rfl rfl).1,
    (config_object_after_relay "worker.py" midWorld [("config", midConfig)] midConfig rfl rfl).2.2
      midEntries rfl⟩

/-- C3: on a non-Windows target, when the flow reaches the send step with a
serializable config but `NODE_CHANNEL_FD` is absent or non-numeric, the
process exits with status 1, nothing is written to any output channel
(stdout included), and the one stderr line carries the channel diagnostic
(`KeyError` naming the variable, or the `int()` `ValueError` quoting the
bad value). -/
theorem channel_failure_behaviour (fp : String) (w : World)
    (attrs : List (String × PyVal)) (cfg : PyVal) (js : String)
    (hw : w.isWindows = false)
    (hl : w.load = LoadResult.loaded attrs)
    (hc : attrs.lookup "config" = some cfg)
    (hd : dumpsVal (cleanConfig cfg) = some js)
    (hch : w.nodeChannelFd = Option.none ∨
      ∃ v, w.nodeChannelFd = some v ∧ pyIntParse v = Option.none) :
    (run_python_module fp w).exitCode = 1 ∧
    (run_python_module fp w).channelWrites = [] ∧
    (w.nodeChannelFd = Option.none →
      (run_python_module fp w).stderrLines = [errLine "\x27NODE_CHANNEL_FD\x27"]) ∧
    (∀ v, w.nodeChannelFd = some v →
      (run_python_module fp w).stderrLines =
        [errLine ("invalid literal for int() with base 10: \x27" ++ v ++ "\x27")]) := by
  rcases hch with hfd | ⟨v, hfd, hp⟩
  · have hsend : send_message w (cleanConfig cfg) =
        SendResult.error "\x27NODE_CHANNEL_FD\x27" := by
      simp [send_message, hd, hw, hfd]
    simp only [run_python_module, hl, hc, hsend]
    refine ⟨rfl, rfl, fun _ => rfl, ?_⟩
    intro v hv
    rw [hfd] at hv
    exact absurd hv (by simp)
  · have hsend : send_message w (cleanConfig cfg) =
        SendResult.error ("invalid literal for int() with base 10: \x27" ++ v ++ "\x27") := by
      simp [send_message, hd, hw, hfd, hp]
    simp only [run_python_module, hl, hc, hsend]
    refine ⟨rfl, rfl, ?_, ?_⟩
    · intro hv
      rw [hfd] at hv
      exact absurd hv (by simp)
    · intro u hu
      rw [hfd] at hu
      injection hu with hu
      subst hu
      rfl

/-- C3 witness: the hello module on a Unix world with `NODE_CHANNEL_FD`
unset. -/
theorem channel_failure_behaviour_check :
    noFdWorld.isWindows = false ∧
    noFdWorld.nodeChannelFd = Option.none ∧
    (run_python_module "hello.py" noFdWorld).exitCode = 1 ∧
    (run_python_module "hello.py" noFdWorld).channelWrites = [] ∧
    (run_python_module "hello.py" noFdWorld).stderrLines =
      [errLine "\x27NODE_CHANNEL_FD\x27"] :=
  ⟨rfl, rfl,
    (channel_failure_behaviour "hello.py" noFdWorld helloAttrs helloConfig
      "\x7b\"queue\": \"hello\", \"flow\": \x7b\"name\": [\"welcome-flow\"], \"role\": \"entry\", \"step\": \"hello\", \"emits\": [\"hello.done\"]\x7d\x7d"
      rfl rfl rfl rfl (Or.inl rfl)).1,
    (channel_failure_behaviour "hello.py" noFdWorld helloAttrs helloConfig
      "\x7b\"queue\": \"hello\", \"flow\": \x7b\"name\": [\"welcome-flow\"], \"role\": \"entry\", \"step\": \"hello\", \"emits\": [\"hello.done\"]\x7d\x7d"
      rfl rfl rfl rfl (Or.inl rfl)).2.1,
    (channel_failure_behaviour "hello.py" noFdWorld helloAttrs helloConfig
      "\x7b\"queue\": \"hello\", \"flow\": \x7b\"name\": [\"welcome-flow\"], \"role\": \"entry\", \"step\": \"hello\", \"emits\": [\"hello.done\"]\x7d\x7d"
      rfl rfl rfl rfl (Or.inl rfl)).2.2.1 rfl⟩

/-- C4: a module that loads but has no `config` attribute makes the process
exit 1 with nothing on the success channel and a single stderr diagnostic
that contains both the word `config` and the module path. -/
theorem missing_config_failure (fp : String) (w : World)
    (attrs : List (String × PyVal))
    (hl : w.load = LoadResult.loaded attrs)
    (hc : attrs.lookup "config" = Option.none) :
    (run_python_module fp w).exitCode = 1 ∧
    (run_python_module fp w).channelWrites = [] ∧
    ∃ msg, (run_python_module fp w).stderrLines = [msg] ∧
      "config".data <:+: msg.data ∧ fp.data <:+: msg.data := by
  simp only [run_python_module, hl, hc]
  refine ⟨rfl, rfl, errLine ("No \x27config\x27 found in module " ++ fp), rfl, ?_, ?_⟩
  · have h1 : "config".data <:+: ("No \x27config\x27 found in module ").data := by decide
    have h2 : (errLine ("No \x27config\x27 found in module " ++ fp)).data =
        ("Error running Python module: " ++ "No \x27config\x27 found in module ").data
          ++ fp.data := by
      simp [errLine, data_append, List.append_assoc]
    rw [h2]
    obtain ⟨s, t, hst⟩ := h1
    exact ⟨"Error running Python module: ".data ++ s, t ++ fp.data, by
      rw [data_append, ← hst]
      simp [List.append_assoc]⟩
  · have h2 : (errLine ("No \x27config\x27 found in module " ++ fp)).data =
        ("Error running Python module: " ++ "No \x27config\x27 found in module ").data
          ++ fp.data := by
      simp [errLine, data_append, List.append_assoc]
    rw [h2]
    exact (List.suffix_append _ _).isInfix

/-- C4 witness: a module exposing only `run`. -/
theorem missing_config_failure_check :
    noConfigWorld.load = LoadResult.loaded [("run", PyVal.callable "run")] ∧
    ([("run", PyVal.callable "run")].lookup "config" = (Option.none : Option PyVal)) ∧
    (run_python_module "bare.py" noConfigWorld).exitCode = 1 ∧
    (run_python_module "bare.py" noConfigWorld).channelWrites = [] ∧
    ∃ msg, (run_python_module "bare.py" noConfigWorld).stderrLines = [msg] ∧
      "config".data <:+: msg.data ∧ "bare.py".data <:+: msg.data :=
  ⟨rfl, rfl,
    (missing_config_failure "bare.py" noConfigWorld [("run", PyVal.callable "run")] rfl rfl).1,
    (missing_config_failure "bare.py" noConfigWorld [("run", PyVal.callable "run")] rfl rfl).2.1,
    (missing_config_failure "bare.py" noConfigWorld [("run", PyVal.callable "run")] rfl rfl).2.2⟩

/-- C5: output is atomic — every invocation either succeeds with exit 0 and
exactly one channel write carrying a complete serialized payload plus the
trailing newline, or fails with exit 1 and no channel write at all. -/
theorem output_atomicity (fp : String) (w : World) :
    ((run_python_module fp w).exitCode = 0 ∧
      ∃ c p js, (run_python_module fp w).sentPayload = some p ∧
        dumpsVal p = some js ∧
        (run_python_module fp w).channelWrites = [(c, js ++ "\n")]) ∨
    ((run_python_module fp w).exitCode = 1 ∧
      (run_python_module fp w).channelWrites = []) := by
  rcases run_shape fp w with ⟨attrs, cfg, wr, hl, hc, hs, hrun⟩ | ⟨msg, cfgAfter, hrun⟩
  · obtain ⟨js, c, hd, hwr⟩ := send_message_sent w _ wr hs
    left
    rw [hrun]
    exact ⟨rfl, c, cleanConfig cfg, js, rfl, hd, by rw [hwr]⟩
  · right
    rw [hrun]
    exact ⟨rfl, rfl⟩

/-- C6: on a successful invocation of the whole command, the channel
receives exactly one message: a serialized JSON value with no embedded
newline, terminated by a single `\n`, and nothing is printed to stderr. -/
theorem single_newline_terminated_message (argv : List String) (w : World)
    (h : (pythonMain argv w).exitCode = 0) :
    ∃ c js, (pythonMain argv w).channelWrites = [(c, js ++ "\n")] ∧
      '\n' ∉ js.data ∧
      (pythonMain argv w).stderrLines = [] := by
  unfold pythonMain at h ⊢
  split at h
  · exact absurd h (by simp)
  next hlen =>
    rw [if_neg hlen]
    rcases run_shape (argv.getD 1 "") w with ⟨attrs, cfg, wr, hl, hc, hs, hrun⟩ |
      ⟨msg, cfgAfter, hrun⟩
    · obtain ⟨js, c, hd, hwr⟩ := send_message_sent w _ wr hs
      exact ⟨c, js, by rw [hrun, hwr], dumpsVal_no_nl _ js hd, by rw [hrun]⟩
    · rw [hrun] at h
      exact absurd h (by simp [failOutcome])

/-- C6 witness: the hello module over the file-descriptor channel. -/
theorem single_newline_terminated_message_check :
    (pythonMain ["get_config.py", "hello.py"] unixWorld).exitCode = 0 ∧
    ∃ c js,
      (pythonMain ["get_config.py", "hello.py"] unixWorld).channelWrites = [(c, js ++ "\n")] ∧
      '\n' ∉ js.data ∧
      (pythonMain ["get_config.py", "hello.py"] unixWorld).stderrLines = [] :=
  ⟨by decide,
    single_newline_terminated_message ["get_config.py", "hello.py"] unixWorld (by decide)⟩

/-- C7: invoked without a module-path argument, the command exits with
status exactly 1 and writes nothing to the channel or to stderr. -/
theorem missing_argument_exit (argv : List String) (w : World)
    (h : argv.length < 2) :
    (pythonMain argv w).exitCode = 1 ∧
    (pythonMain argv w).channelWrites = [] ∧
    (pythonMain argv w).stderrLines = [] := by
  unfold pythonMain
  rw [if_pos h]
  exact ⟨rfl, rfl, rfl⟩

/-- C7 witness: `argv` holding only the program name. -/
theorem missing_argument_exit_check :
    ["get_config.py"].length < 2 ∧
    (pythonMain ["get_config.py"] unixWorld).exitCode = 1 ∧
    (pythonMain ["get_config.py"] unixWorld).channelWrites = [] ∧
    (pythonMain ["get_config.py"] unixWorld).stderrLines = [] :=
  ⟨by decide, missing_argument_exit ["get_config.py"] unixWorld (by decide)⟩

/-- C8: the only change to `sys.path` is the insertion of the directory
containing the worker at the front, and only when it is not already present: after the
run the directory is on the path, an already-present directory leaves the
path exactly as it was, and an absent one is consed onto the unchanged
remainder. -/
theorem syspath_insertion_only (fp : String) (w : World) :
    (run_python_module fp w).sysPathAfter = insertDir w ∧
    w.moduleDir ∈ (run_python_module fp w).sysPathAfter ∧
    (w.moduleDir ∈ w.sysPath → (run_python_module fp w).sysPathAfter = w.sysPath) ∧
    (w.moduleDir ∉ w.sysPath →
      (run_python_module fp w).sysPathAfter = w.moduleDir :: w.sysPath) := by
  have hsp : (run_python_module fp w).sysPathAfter = insertDir w := by
    rcases run_shape fp w with ⟨_, _, _, _, _, _, hrun⟩ | ⟨_, _, hrun⟩
    · rw [hrun]
    · rw [hrun]
      rfl
  refine ⟨hsp, ?_, ?_, ?_⟩
  · rw [hsp]
    unfold insertDir
    split_ifs with hm
    · exact hm
    · exact List.mem_cons_self _ _
  · intro hm
    rw [hsp]
    unfold insertDir
    rw [if_pos hm]
  · intro hm
    rw [hsp]
    unfold insertDir
    rw [if_neg hm]

/-- C8 witness: `unixWorld`, whose module directory is not yet on the
path. -/
theorem syspath_insertion_only_check :
    "queues" ∈ (run_python_module "hello.py" unixWorld).sysPathAfter ∧
    (run_python_module "hello.py" unixWorld).sysPathAfter = "queues" :: ["lib"] :=
  ⟨(syspath_insertion_only "hello.py" unixWorld).2.1,
    (syspath_insertion_only "hello.py" unixWorld).2.2.2 (by decide)⟩

/-- C9: a non-dict `config` skips the middleware removal entirely — the
module object is untouched and any sent payload is the config itself —
and when it is unserializable the run falls through to the generic
`except` path: exit 1, no channel write, the stderr line carrying the
`TypeError` message of the serializer rather than a dedicated validation
error. -/
theorem non_dict_config_passthrough (fp : String) (w : World)
    (attrs : List (String × PyVal)) (cfg : PyVal)
    (hl : w.load = LoadResult.loaded attrs)
    (hc : attrs.lookup "config" = some cfg)
    (hnd : isDict cfg = false) :
    (run_python_module fp w).moduleConfigAfter = some cfg ∧
    (∀ p, (run_python_module fp w).sentPayload = some p → p = cfg) ∧
    (∀ js, dumpsVal cfg = some js → (run_python_module fp w).exitCode = 0 →
      ∃ c, (run_python_module fp w).channelWrites = [(c, js ++ "\n")]) ∧
    (dumpsVal cfg = Option.none →
      (run_python_module fp w).exitCode = 1 ∧
      (run_python_module fp w).channelWrites = [] ∧
      (run_python_module fp w).stderrLines =
        [errLine "Object of type function is not JSON serializable"]) := by
  have hclean : cleanConfig cfg = cfg := cleanConfig_not_dict cfg hnd
  refine ⟨?_, ?_, ?_, ?_⟩
  · simp only [run_python_module, hl, hc]
    split <;> simp [failOutcome, hclean]
  · intro p hp
    simp only [run_python_module, hl, hc] at hp
    split at hp
    · simp only [Option.some.injEq] at hp
      rw [← hp, hclean]
    · simp [failOutcome] at hp
  · intro js hd hz
    cases hs : send_message w (cleanConfig cfg) with
    | sent wr =>
      obtain ⟨js2, c, hd2, hwr⟩ := send_message_sent w _ wr hs
      rw [hclean, hd] at hd2
      injection hd2 with hd2
      refine ⟨c, ?_⟩
      simp only [run_python_module, hl, hc, hs]
      rw [hwr, hd2]
    | error msg =>
      simp only [run_python_module, hl, hc, hs] at hz
      simp [failOutcome] at hz
  · intro hdn
    have hsend : send_message w (cleanConfig cfg) =
        SendResult.error "Object of type function is not JSON serializable" := by
      unfold send_message
      rw [hclean, hdn]
    simp only [run_python_module, hl, hc, hsend]
    exact ⟨rfl, rfl, rfl⟩

/-- C9 witness: a module whose `config` is the list `[1, "a"]`. -/
theorem non_dict_config_passthrough_check :
    isDict (PyVal.list [PyVal.int 1, PyVal.str "a"]) = false ∧
    (run_python_module "lst.py" listConfigWorld).moduleConfigAfter =
      some (PyVal.list [PyVal.int 1, PyVal.str "a"]) ∧
    (run_python_module "lst.py" listConfigWorld).exitCode = 0 :=
  ⟨by decide,
    (non_dict_config_passthrough "lst.py" listConfigWorld
      [("config", PyVal.list [PyVal.int 1, PyVal.str "a"])]
      (PyVal.list [PyVal.int 1, PyVal.str "a"]) rfl rfl (by decide)).1,
    by decide⟩

/-- C10: every invocation of `run_python_module` terminates in one of two
ways: exit 0 with an empty stderr, or exit 1 with exactly one diagnostic
line on stderr — never another exit code and never an uncaught fall
through. -/
theorem error_funnel_exit_one (fp : String) (w : World) :
    ((run_python_module fp w).exitCode = 0 ∧
      (run_python_module fp w).stderrLines = []) ∨
    ((run_python_module fp w).exitCode = 1 ∧
      (run_python_module fp w).stderrLines.length = 1) := by
  rcases run_shape fp w with ⟨_, _, _, _, _, _, hrun⟩ | ⟨msg, cfgAfter, hrun⟩
  · left
    rw [hrun]
    exact ⟨rfl, rfl⟩
  · right
    rw [hrun]
    exact ⟨rfl, rfl⟩
